import Mathlib

/-!
Shallow embedding of `rust-antidote` (`src/lib.rs`), a library wrapping
`std::sync::Mutex` and `std::sync::RwLock` so that the poison state of the
underlying lock is never surfaced to the caller.

The underlying standard-library locks are an external collaborator of the
repository; they are modelled here as explicit states (protected value,
poison flag, current holders) with the documented behaviour of
`std::sync`: a blocking acquisition is modelled at single-step granularity
by an `Option` (`none` meaning the call cannot complete now and keeps
blocking), and on completion it reports either clean success or a
`PoisonError` carrying the guard.  The antidote wrappers are then
transcribed line by line from `src/lib.rs`.
-/

namespace sync

/-- Model of `std::sync::PoisonError<G>`: the error returned by a lock
acquisition that succeeded on a poisoned lock; it carries the guard. -/
structure PoisonError (G : Type) where
  guard : G
deriving Repr, DecidableEq

/-- `std::sync::PoisonError::into_inner` returns the carried guard. -/
def PoisonError.into_inner {G : Type} (e : PoisonError G) : G := e.guard

/-- Model of `std::sync::LockResult<G> = Result<G, PoisonError<G>>`. -/
abbrev LockResult (G : Type) := Except (PoisonError G) G

/-- Model of `std::sync::TryLockError<G>`. -/
inductive TryLockError (G : Type) where
  | Poisoned (e : PoisonError G)
  | WouldBlock
deriving Repr, DecidableEq

/-- Model of `std::sync::TryLockResult<G>`. -/
abbrev TryLockResult (G : Type) := Except (TryLockError G) G

/-- `Result::unwrap_or_else` specialised to `Except`. -/
def unwrapOrElse {E A : Type} (r : Except E A) (f : E → A) : A :=
  match r with
  | .ok a => a
  | .error e => f e

/-- State of a `std::sync::Mutex<T>`: the protected value, the poison
flag, and whether some thread currently holds the lock. -/
structure Mutex (T : Type) where
  value : T
  poisoned : Bool
  locked : Bool
deriving Repr, DecidableEq

/-- Model of `std::sync::MutexGuard<T>`: grants access to the value. -/
structure MutexGuard (T : Type) where
  value : T
deriving Repr, DecidableEq

/-- `MutexGuard::deref` yields the protected value. -/
def MutexGuard.deref {T : Type} (g : MutexGuard T) : T := g.value

/-- Model of `std::sync::Mutex::lock`, at single-step granularity: while
another holder has the lock the call keeps blocking (`none`); once the
lock is free it is acquired, and the result is `Err(PoisonError(guard))`
when the lock is poisoned, `Ok(guard)` otherwise. -/
def Mutex.lock {T : Type} (m : Mutex T) :
    Option (LockResult (MutexGuard T) × Mutex T) :=
  if m.locked then none
  else
    some (if m.poisoned then .error ⟨⟨m.value⟩⟩ else .ok ⟨m.value⟩,
      { m with locked := true })

/-- Model of `std::sync::Mutex::try_lock`: `WouldBlock` when the lock is
held; otherwise it is acquired, and poison is reported as
`Err(Poisoned(..))` carrying the guard. -/
def Mutex.try_lock {T : Type} (m : Mutex T) :
    TryLockResult (MutexGuard T) × Mutex T :=
  if m.locked then (.error .WouldBlock, m)
  else
    (if m.poisoned then .error (.Poisoned ⟨⟨m.value⟩⟩) else .ok ⟨m.value⟩,
      { m with locked := true })

/-- Model of `std::sync::Mutex::into_inner`: consumes the mutex,
reporting poison as `Err(PoisonError(value))`. -/
def Mutex.into_inner {T : Type} (m : Mutex T) : LockResult T :=
  if m.poisoned then .error ⟨m.value⟩ else .ok m.value

/-- Model of `std::sync::Mutex::get_mut`: no locking takes place; poison
is reported as `Err(PoisonError(value))`. -/
def Mutex.get_mut {T : Type} (m : Mutex T) : LockResult T :=
  if m.poisoned then .error ⟨m.value⟩ else .ok m.value

/-- Models the effect on the underlying mutex of a holder thread
terminating abnormally (unwinding) while holding the guard: the guard is
dropped, releasing the lock, and the poison flag is set. -/
def Mutex.holderAborts {T : Type} (m : Mutex T) : Mutex T :=
  { m with poisoned := true, locked := false }

/-- State of a `std::sync::RwLock<T>`: the protected value, the poison
flag, the number of current readers and whether a writer holds it. -/
structure RwLock (T : Type) where
  value : T
  poisoned : Bool
  readers : Nat
  writer : Bool
deriving Repr, DecidableEq

/-- Model of `std::sync::RwLockReadGuard<T>`. -/
structure RwLockReadGuard (T : Type) where
  value : T
deriving Repr, DecidableEq

/-- `RwLockReadGuard::deref` yields the protected value. -/
def RwLockReadGuard.deref {T : Type} (g : RwLockReadGuard T) : T := g.value

/-- Model of `std::sync::RwLockWriteGuard<T>`. -/
structure RwLockWriteGuard (T : Type) where
  value : T
deriving Repr, DecidableEq

/-- `RwLockWriteGuard::deref` yields the protected value. -/
def RwLockWriteGuard.deref {T : Type} (g : RwLockWriteGuard T) : T := g.value

/-- Model of `std::sync::RwLock::read`: blocks while a writer holds the
lock; otherwise shared access is granted (the reader count grows), with
poison reported as `Err(PoisonError(guard))`. -/
def RwLock.read {T : Type} (l : RwLock T) :
    Option (LockResult (RwLockReadGuard T) × RwLock T) :=
  if l.writer then none
  else
    some (if l.poisoned then .error ⟨⟨l.value⟩⟩ else .ok ⟨l.value⟩,
      { l with readers := l.readers + 1 })

/-- Model of `std::sync::RwLock::try_read`: `WouldBlock` when a writer
holds the lock; otherwise shared access is granted. -/
def RwLock.try_read {T : Type} (l : RwLock T) :
    TryLockResult (RwLockReadGuard T) × RwLock T :=
  if l.writer then (.error .WouldBlock, l)
  else
    (if l.poisoned then .error (.Poisoned ⟨⟨l.value⟩⟩) else .ok ⟨l.value⟩,
      { l with readers := l.readers + 1 })

/-- Model of `std::sync::RwLock::write`: blocks while any reader or a
writer holds the lock; otherwise exclusive access is granted. -/
def RwLock.write {T : Type} (l : RwLock T) :
    Option (LockResult (RwLockWriteGuard T) × RwLock T) :=
  if l.writer ∨ l.readers ≠ 0 then none
  else
    some (if l.poisoned then .error ⟨⟨l.value⟩⟩ else .ok ⟨l.value⟩,
      { l with writer := true })

/-- Model of `std::sync::RwLock::try_write`: `WouldBlock` when any
reader or a writer holds the lock. -/
def RwLock.try_write {T : Type} (l : RwLock T) :
    TryLockResult (RwLockWriteGuard T) × RwLock T :=
  if l.writer ∨ l.readers ≠ 0 then (.error .WouldBlock, l)
  else
    (if l.poisoned then .error (.Poisoned ⟨⟨l.value⟩⟩) else .ok ⟨l.value⟩,
      { l with writer := true })

/-- Model of `std::sync::RwLock::into_inner`. -/
def RwLock.into_inner {T : Type} (l : RwLock T) : LockResult T :=
  if l.poisoned then .error ⟨l.value⟩ else .ok l.value

/-- Model of `std::sync::RwLock::get_mut`. -/
def RwLock.get_mut {T : Type} (l : RwLock T) : LockResult T :=
  if l.poisoned then .error ⟨l.value⟩ else .ok l.value

/-- Models the effect on the underlying rwlock of the writer thread
terminating abnormally while holding the write guard: the guard is
dropped, releasing exclusive access, and the poison flag is set. -/
def RwLock.writerAborts {T : Type} (l : RwLock T) : RwLock T :=
  { l with poisoned := true, writer := false }

/-- Models the effect on the underlying rwlock of one reader thread
terminating abnormally while holding a read guard: the guard is dropped,
releasing that shared access; read guards do not poison the lock. -/
def RwLock.readerAborts {T : Type} (l : RwLock T) : RwLock T :=
  { l with readers := l.readers - 1 }

end sync

namespace antidote

/-- `pub struct Mutex<T>(sync::Mutex<T>);` -/
structure Mutex (T : Type) where
  inner : sync.Mutex T
deriving Repr, DecidableEq

/-- `pub struct MutexGuard<'a, T>(sync::MutexGuard<'a, T>);` -/
structure MutexGuard (T : Type) where
  inner : sync.MutexGuard T
deriving Repr, DecidableEq

/-- `impl Deref for MutexGuard`: `self.0.deref()`. -/
def MutexGuard.deref {T : Type} (g : MutexGuard T) : T := g.inner.deref

/-- `pub struct TryLockError(());` -/
structure TryLockError where
  payload : Unit
deriving Repr, DecidableEq

/-- `impl Error for TryLockError`: the fixed description string. -/
def TryLockError.description (_e : TryLockError) : String :=
  "try_lock failed because the operation would block"

/-- `pub type TryLockResult<T> = Result<T, TryLockError>;` -/
abbrev TryLockResult (G : Type) := Except TryLockError G

/-- `Mutex::new(t)`: `Mutex(sync::Mutex::new(t))` — a fresh unlocked,
unpoisoned mutex around `t`. -/
def Mutex.new {T : Type} (t : T) : Mutex T :=
  ⟨{ value := t, poisoned := false, locked := false }⟩

/-- `Mutex::lock`: `MutexGuard(self.0.lock().unwrap_or_else(|e| e.into_inner()))`. -/
def Mutex.lock {T : Type} (m : Mutex T) : Option (MutexGuard T × Mutex T) :=
  match sync.Mutex.lock m.inner with
  | none => none
  | some (r, s) => some (⟨sync.unwrapOrElse r (fun e => e.into_inner)⟩, ⟨s⟩)

/-- `Mutex::try_lock`: the match on `self.0.try_lock()`. -/
def Mutex.try_lock {T : Type} (m : Mutex T) :
    TryLockResult (MutexGuard T) × Mutex T :=
  match sync.Mutex.try_lock m.inner with
  | (.ok t, s) => (.ok ⟨t⟩, ⟨s⟩)
  | (.error (.Poisoned e), s) => (.ok ⟨e.into_inner⟩, ⟨s⟩)
  | (.error .WouldBlock, s) => (.error ⟨()⟩, ⟨s⟩)

/-- `Mutex::into_inner`: `self.0.into_inner().unwrap_or_else(|e| e.into_inner())`. -/
def Mutex.into_inner {T : Type} (m : Mutex T) : T :=
  sync.unwrapOrElse (sync.Mutex.into_inner m.inner) (fun e => e.into_inner)

/-- `Mutex::get_mut`: `self.0.get_mut().unwrap_or_else(|e| e.into_inner())`. -/
def Mutex.get_mut {T : Type} (m : Mutex T) : T :=
  sync.unwrapOrElse (sync.Mutex.get_mut m.inner) (fun e => e.into_inner)

/-- `pub struct RwLock<T>(sync::RwLock<T>);` -/
structure RwLock (T : Type) where
  inner : sync.RwLock T
deriving Repr, DecidableEq

/-- `pub struct RwLockReadGuard<'a, T>(sync::RwLockReadGuard<'a, T>);` -/
structure RwLockReadGuard (T : Type) where
  inner : sync.RwLockReadGuard T
deriving Repr, DecidableEq

/-- `impl Deref for RwLockReadGuard`: `self.0.deref()`. -/
def RwLockReadGuard.deref {T : Type} (g : RwLockReadGuard T) : T :=
  g.inner.deref

/-- `pub struct RwLockWriteGuard<'a, T>(sync::RwLockWriteGuard<'a, T>);` -/
structure RwLockWriteGuard (T : Type) where
  inner : sync.RwLockWriteGuard T
deriving Repr, DecidableEq

/-- `impl Deref for RwLockWriteGuard`: `self.0.deref()`. -/
def RwLockWriteGuard.deref {T : Type} (g : RwLockWriteGuard T) : T :=
  g.inner.deref

/-- `RwLock::new(t)`: `RwLock(sync::RwLock::new(t))`. -/
def RwLock.new {T : Type} (t : T) : RwLock T :=
  ⟨{ value := t, poisoned := false, readers := 0, writer := false }⟩

/-- `RwLock::read`: `RwLockReadGuard(self.0.read().unwrap_or_else(|e| e.into_inner()))`. -/
def RwLock.read {T : Type} (l : RwLock T) :
    Option (RwLockReadGuard T × RwLock T) :=
  match sync.RwLock.read l.inner with
  | none => none
  | some (r, s) => some (⟨sync.unwrapOrElse r (fun e => e.into_inner)⟩, ⟨s⟩)

/-- `RwLock::try_read`: the match on `self.0.try_read()`. -/
def RwLock.try_read {T : Type} (l : RwLock T) :
    TryLockResult (RwLockReadGuard T) × RwLock T :=
  match sync.RwLock.try_read l.inner with
  | (.ok t, s) => (.ok ⟨t⟩, ⟨s⟩)
  | (.error (.Poisoned e), s) => (.ok ⟨e.into_inner⟩, ⟨s⟩)
  | (.error .WouldBlock, s) => (.error ⟨()⟩, ⟨s⟩)

/-- `RwLock::write`: `RwLockWriteGuard(self.0.write().unwrap_or_else(|e| e.into_inner()))`. -/
def RwLock.write {T : Type} (l : RwLock T) :
    Option (RwLockWriteGuard T × RwLock T) :=
  match sync.RwLock.write l.inner with
  | none => none
  | some (r, s) => some (⟨sync.unwrapOrElse r (fun e => e.into_inner)⟩, ⟨s⟩)

/-- `RwLock::try_write`: the match on `self.0.try_write()`. -/
def RwLock.try_write {T : Type} (l : RwLock T) :
    TryLockResult (RwLockWriteGuard T) × RwLock T :=
  match sync.RwLock.try_write l.inner with
  | (.ok t, s) => (.ok ⟨t⟩, ⟨s⟩)
  | (.error (.Poisoned e), s) => (.ok ⟨e.into_inner⟩, ⟨s⟩)
  | (.error .WouldBlock, s) => (.error ⟨()⟩, ⟨s⟩)

/-- `RwLock::into_inner`: `self.0.into_inner().unwrap_or_else(|e| e.into_inner())`. -/
def RwLock.into_inner {T : Type} (l : RwLock T) : T :=
  sync.unwrapOrElse (sync.RwLock.into_inner l.inner) (fun e => e.into_inner)

/-- `RwLock::get_mut`: `self.0.get_mut().unwrap_or_else(|e| e.into_inner())`. -/
def RwLock.get_mut {T : Type} (l : RwLock T) : T :=
  sync.unwrapOrElse (sync.RwLock.get_mut l.inner) (fun e => e.into_inner)

/-- Performs `n` successive `RwLock::read` acquisitions, none of the
guards being released in between; `none` when some acquisition blocks. -/
def RwLock.readN {T : Type} : Nat → RwLock T →
    Option (List (RwLockReadGuard T) × RwLock T)
  | 0, l => some ([], l)
  | n + 1, l =>
    match RwLock.read l with
    | none => none
    | some (g, l') =>
      match RwLock.readN n l' with
      | none => none
      | some (gs, l'') => some (g :: gs, l'')

end antidote

/-- Claim C1: for every `Mutex`, `lock()` always returns a guard and never an
error — when the underlying acquisition reports the poisoned outcome, `lock()`
unwraps it into the same successful guard a clean acquisition would return;
`RwLock::read()` and `RwLock::write()` behave the same way. -/
theorem lock_discards_poison {T : Type} (m : sync.Mutex T)
    (l lw : sync.RwLock T) (hm : m.locked = false) (hr : l.writer = false)
    (hw : lw.writer = false ∧ lw.readers = 0) :
    (∃ g s, antidote.Mutex.lock ⟨m⟩ = some (g, s)) ∧
    (antidote.Mutex.lock ⟨m⟩).map Prod.fst =
      (antidote.Mutex.lock ⟨{ m with poisoned := false }⟩).map Prod.fst ∧
    (∃ g s, antidote.RwLock.read ⟨l⟩ = some (g, s)) ∧
    (antidote.RwLock.read ⟨l⟩).map Prod.fst =
      (antidote.RwLock.read ⟨{ l with poisoned := false }⟩).map Prod.fst ∧
    (∃ g s, antidote.RwLock.write ⟨lw⟩ = some (g, s)) ∧
    (antidote.RwLock.write ⟨lw⟩).map Prod.fst =
      (antidote.RwLock.write ⟨{ lw with poisoned := false }⟩).map Prod.fst := by
  obtain ⟨hw1, hw2⟩ := hw
  refine ⟨?_, ?_, ?_, ?_, ?_, ?_⟩ <;>
    simp [antidote.Mutex.lock, sync.Mutex.lock, antidote.RwLock.read,
      sync.RwLock.read, antidote.RwLock.write, sync.RwLock.write,
      sync.unwrapOrElse, sync.PoisonError.into_inner, hm, hr, hw1, hw2] <;>
    cases m.poisoned <;> cases l.poisoned <;> cases lw.poisoned <;> simp

/-- Witness instantiating claim C1 at concrete poisoned, acquirable locks. -/
theorem lock_discards_poison_witness :
    (∃ g s, antidote.Mutex.lock ⟨⟨(5 : Nat), true, false⟩⟩ = some (g, s)) ∧
    (antidote.Mutex.lock ⟨⟨(5 : Nat), true, false⟩⟩).map Prod.fst =
      (antidote.Mutex.lock ⟨⟨(5 : Nat), false, false⟩⟩).map Prod.fst ∧
    (∃ g s, antidote.RwLock.read ⟨⟨(7 : Nat), true, 2, false⟩⟩ = some (g, s)) ∧
    (antidote.RwLock.read ⟨⟨(7 : Nat), true, 2, false⟩⟩).map Prod.fst =
      (antidote.RwLock.read ⟨⟨(7 : Nat), false, 2, false⟩⟩).map Prod.fst ∧
    (∃ g s, antidote.RwLock.write ⟨⟨(9 : Nat), true, 0, false⟩⟩ = some (g, s)) ∧
    (antidote.RwLock.write ⟨⟨(9 : Nat), true, 0, false⟩⟩).map Prod.fst =
      (antidote.RwLock.write ⟨⟨(9 : Nat), false, 0, false⟩⟩).map Prod.fst :=
  lock_discards_poison ⟨5, true, false⟩ ⟨7, true, 2, false⟩ ⟨9, true, 0, false⟩
    rfl rfl ⟨rfl, rfl⟩

/-- Claim C2: each non-blocking entry point returns `Ok` with a guard exactly
when the underlying non-blocking acquisition is clean success or the poisoned
outcome, and returns `Err(TryLockError)` exactly when the underlying lock
reports it would block because of a conflicting holder. -/
theorem try_lock_matches_underlying {T : Type} (m : sync.Mutex T)
    (l : sync.RwLock T) :
    ((∃ g s, antidote.Mutex.try_lock ⟨m⟩ = (.ok g, s)) ↔
      ((∃ g, (sync.Mutex.try_lock m).1 = .ok g) ∨
        ∃ e, (sync.Mutex.try_lock m).1 = .error (.Poisoned e))) ∧
    ((∃ s, antidote.Mutex.try_lock ⟨m⟩ = (.error ⟨()⟩, s)) ↔
      (sync.Mutex.try_lock m).1 = .error .WouldBlock) ∧
    ((sync.Mutex.try_lock m).1 = .error .WouldBlock ↔ m.locked = true) ∧
    ((∃ g s, antidote.RwLock.try_read ⟨l⟩ = (.ok g, s)) ↔
      ((∃ g, (sync.RwLock.try_read l).1 = .ok g) ∨
        ∃ e, (sync.RwLock.try_read l).1 = .error (.Poisoned e))) ∧
    ((∃ s, antidote.RwLock.try_read ⟨l⟩ = (.error ⟨()⟩, s)) ↔
      (sync.RwLock.try_read l).1 = .error .WouldBlock) ∧
    ((sync.RwLock.try_read l).1 = .error .WouldBlock ↔ l.writer = true) ∧
    ((∃ g s, antidote.RwLock.try_write ⟨l⟩ = (.ok g, s)) ↔
      ((∃ g, (sync.RwLock.try_write l).1 = .ok g) ∨
        ∃ e, (sync.RwLock.try_write l).1 = .error (.Poisoned e))) ∧
    ((∃ s, antidote.RwLock.try_write ⟨l⟩ = (.error ⟨()⟩, s)) ↔
      (sync.RwLock.try_write l).1 = .error .WouldBlock) ∧
    ((sync.RwLock.try_write l).1 = .error .WouldBlock ↔
      (l.writer = true ∨ l.readers ≠ 0)) := by
  obtain ⟨mv, mp, ml⟩ := m
  obtain ⟨lv, lp, lr, lw⟩ := l
  by_cases hr : lr = 0 <;> subst_vars <;>
    cases mp <;> cases ml <;> cases lp <;> cases lw <;>
    simp_all [antidote.Mutex.try_lock, sync.Mutex.try_lock,
      antidote.RwLock.try_read, sync.RwLock.try_read,
      antidote.RwLock.try_write, sync.RwLock.try_write,
      sync.PoisonError.into_inner]

/-- Claim C3: after a thread holding the mutex terminates abnormally (leaving
the underlying lock poisoned), a subsequent `lock()` succeeds and its guard
derefs to the protected value unchanged. -/
theorem lock_after_abort_yields_value {T : Type} (m : sync.Mutex T)
    (_h : m.locked = true) :
    ∃ g s, antidote.Mutex.lock ⟨sync.Mutex.holderAborts m⟩ = some (g, s) ∧
      g.deref = m.value := by
  refine ⟨⟨⟨m.value⟩⟩, ⟨{ m with poisoned := true, locked := true }⟩, ?_, rfl⟩
  simp [antidote.Mutex.lock, sync.Mutex.lock, sync.Mutex.holderAborts,
    sync.unwrapOrElse, sync.PoisonError.into_inner]

/-- Witness instantiating claim C3 at a concrete held mutex around 42. -/
theorem lock_after_abort_yields_value_witness :
    ∃ g s,
      antidote.Mutex.lock ⟨sync.Mutex.holderAborts ⟨(42 : Nat), false, true⟩⟩ =
        some (g, s) ∧ g.deref = 42 :=
  lock_after_abort_yields_value ⟨42, false, true⟩ rfl

/-- Claim C4: the only error value any public operation returns is the
would-block `TryLockError` of the non-blocking entry points; it carries no
data beyond its fixed description string, and the blocking entry points
`lock()`, `read()`, `write()` have no error case in their return type (when
they complete, they complete with a guard). -/
theorem tryLockError_only_error {T : Type} (m : sync.Mutex T)
    (l : sync.RwLock T) (e : antidote.TryLockError) :
    e.description = "try_lock failed because the operation would block" ∧
    e = ⟨()⟩ ∧
    ((∃ g s, antidote.Mutex.try_lock ⟨m⟩ = (.ok g, s)) ∨
      ∃ s, antidote.Mutex.try_lock ⟨m⟩ = (.error ⟨()⟩, s)) ∧
    ((∃ g s, antidote.RwLock.try_read ⟨l⟩ = (.ok g, s)) ∨
      ∃ s, antidote.RwLock.try_read ⟨l⟩ = (.error ⟨()⟩, s)) ∧
    ((∃ g s, antidote.RwLock.try_write ⟨l⟩ = (.ok g, s)) ∨
      ∃ s, antidote.RwLock.try_write ⟨l⟩ = (.error ⟨()⟩, s)) ∧
    ((∃ p, antidote.Mutex.lock ⟨m⟩ = some p) ↔ m.locked = false) ∧
    ((∃ p, antidote.RwLock.read ⟨l⟩ = some p) ↔ l.writer = false) ∧
    ((∃ p, antidote.RwLock.write ⟨l⟩ = some p) ↔
      (l.writer = false ∧ l.readers = 0)) := by
  obtain ⟨mv, mp, ml⟩ := m
  obtain ⟨lv, lp, lr, lw⟩ := l
  by_cases hr : lr = 0 <;> subst_vars <;>
    cases mp <;> cases ml <;> cases lp <;> cases lw <;>
    simp_all [antidote.Mutex.try_lock, sync.Mutex.try_lock,
      antidote.RwLock.try_read, sync.RwLock.try_read,
      antidote.RwLock.try_write, sync.RwLock.try_write,
      antidote.Mutex.lock, sync.Mutex.lock, antidote.RwLock.read,
      sync.RwLock.read, antidote.RwLock.write, sync.RwLock.write,
      antidote.TryLockError.description, sync.unwrapOrElse,
      sync.PoisonError.into_inner]

/-- Claim C5: `into_inner()` consumes the wrapper and returns the protected
value itself, as a plain value, whether or not the underlying lock was
poisoned. -/
theorem into_inner_returns_value {T : Type} (m : sync.Mutex T)
    (l : sync.RwLock T) :
    antidote.Mutex.into_inner ⟨m⟩ = m.value ∧
    antidote.RwLock.into_inner ⟨l⟩ = l.value := by
  cases hm : m.poisoned <;> cases hl : l.poisoned <;>
    simp [antidote.Mutex.into_inner, sync.Mutex.into_inner,
      antidote.RwLock.into_inner, sync.RwLock.into_inner, hm, hl,
      sync.unwrapOrElse, sync.PoisonError.into_inner]

/-- Claim C6: for every value `v`, the guard returned by
`Mutex::new(v).lock()` dereferences to `v`. -/
theorem new_lock_derefs_to_value {T : Type} (v : T) :
    ∃ g s, antidote.Mutex.lock (antidote.Mutex.new v) = some (g, s) ∧
      g.deref = v := by
  exact ⟨⟨⟨v⟩⟩, ⟨{ value := v, poisoned := false, locked := true }⟩, by
    simp [antidote.Mutex.lock, antidote.Mutex.new, sync.Mutex.lock,
      sync.unwrapOrElse], rfl⟩

/-- On a writer-free rwlock, the wrapper's `read` always succeeds, yielding
a guard for the protected value and incrementing the reader count. -/
theorem read_no_writer {T : Type} (l : sync.RwLock T) (h : l.writer = false) :
    antidote.RwLock.read ⟨l⟩ =
      some (⟨⟨l.value⟩⟩, ⟨{ l with readers := l.readers + 1 }⟩) := by
  cases hp : l.poisoned <;>
    simp [antidote.RwLock.read, sync.RwLock.read, h, hp,
      sync.unwrapOrElse, sync.PoisonError.into_inner]

/-- On a writer-free rwlock, `n` successive `read` acquisitions all
succeed, producing `n` guards and `n` more readers. -/
theorem readN_succeeds {T : Type} :
    ∀ (n : Nat) (l : sync.RwLock T), l.writer = false →
    ∃ gs l', antidote.RwLock.readN n ⟨l⟩ = some (gs, l') ∧ gs.length = n ∧
      l'.inner.value = l.value ∧ l'.inner.readers = l.readers + n ∧
      l'.inner.writer = false := by
  intro n
  induction n with
  | zero =>
    intro l h
    exact ⟨[], ⟨l⟩, by simp [antidote.RwLock.readN], rfl, rfl, rfl, h⟩
  | succ n ih =>
    intro l h
    obtain ⟨gs, l', heq, hlen, hv, hr, hw⟩ :=
      ih { l with readers := l.readers + 1 } h
    refine ⟨⟨⟨l.value⟩⟩ :: gs, l', ?_, by simp [hlen], hv, by simp [hr]; omega,
      hw⟩
    simp [antidote.RwLock.readN, read_no_writer l h, heq]

/-- Claim C7: any number `n` of concurrent `read()` acquisitions all succeed
when no writer holds the lock; `write()` succeeds exactly when no readers and
no writer currently hold it; and abnormal termination of a holder does not
prevent any subsequent `read`, `try_read`, `write` or `try_write` from
succeeding. -/
theorem rwlock_concurrency {T : Type} (l l0 : sync.RwLock T) (n : Nat)
    (h : l.writer = false) :
    (∃ gs l', antidote.RwLock.readN n ⟨l⟩ = some (gs, l') ∧ gs.length = n) ∧
    ((∃ p, antidote.RwLock.write ⟨l0⟩ = some p) ↔
      (l0.writer = false ∧ l0.readers = 0)) ∧
    (∃ g s, antidote.RwLock.read
      ⟨sync.RwLock.writerAborts { l with writer := true }⟩ = some (g, s)) ∧
    (∃ g s, antidote.RwLock.try_read
      ⟨sync.RwLock.writerAborts { l with writer := true }⟩ = (.ok g, s)) ∧
    ((∃ p, antidote.RwLock.write
        ⟨sync.RwLock.writerAborts { l with writer := true }⟩ = some p) ↔
      l.readers = 0) ∧
    ((∃ g s, antidote.RwLock.try_write
        ⟨sync.RwLock.writerAborts { l with writer := true }⟩ = (.ok g, s)) ↔
      l.readers = 0) := by
  refine ⟨?_, ?_, ?_, ?_, ?_, ?_⟩
  · obtain ⟨gs, l', heq, hlen, _⟩ := readN_succeeds n l h
    exact ⟨gs, l', heq, hlen⟩
  · obtain ⟨v0, p0, r0, w0⟩ := l0
    by_cases hr : r0 = 0 <;> cases p0 <;> cases w0 <;>
      simp_all [antidote.RwLock.write, sync.RwLock.write, sync.unwrapOrElse,
        sync.PoisonError.into_inner]
  · exact ⟨⟨⟨l.value⟩⟩, ⟨⟨l.value, true, l.readers + 1, false⟩⟩, by
      simp [antidote.RwLock.read, sync.RwLock.read, sync.RwLock.writerAborts,
        sync.unwrapOrElse, sync.PoisonError.into_inner]⟩
  · exact ⟨⟨⟨l.value⟩⟩, ⟨⟨l.value, true, l.readers + 1, false⟩⟩, by
      simp [antidote.RwLock.try_read, sync.RwLock.try_read,
        sync.RwLock.writerAborts, sync.PoisonError.into_inner]⟩
  · by_cases hr : l.readers = 0 <;>
      simp_all [antidote.RwLock.write, sync.RwLock.write,
        sync.RwLock.writerAborts, sync.unwrapOrElse,
        sync.PoisonError.into_inner]
  · by_cases hr : l.readers = 0 <;>
      simp_all [antidote.RwLock.try_write, sync.RwLock.try_write,
        sync.RwLock.writerAborts, sync.PoisonError.into_inner]

/-- Witness instantiating claim C7: four reads on a poisoned writer-free
lock, a write refused while two readers hold, acquisitions after an
aborted writer. -/
theorem rwlock_concurrency_witness :
    (∃ gs l', antidote.RwLock.readN 4 ⟨⟨(3 : Nat), true, 0, false⟩⟩ =
      some (gs, l') ∧ gs.length = 4) ∧
    ((∃ p, antidote.RwLock.write ⟨⟨(1 : Nat), false, 2, true⟩⟩ = some p) ↔
      (true = false ∧ (2 : Nat) = 0)) ∧
    (∃ g s, antidote.RwLock.read
      ⟨sync.RwLock.writerAborts ⟨(3 : Nat), true, 0, true⟩⟩ = some (g, s)) ∧
    (∃ g s, antidote.RwLock.try_read
      ⟨sync.RwLock.writerAborts ⟨(3 : Nat), true, 0, true⟩⟩ = (.ok g, s)) ∧
    ((∃ p, antidote.RwLock.write
        ⟨sync.RwLock.writerAborts ⟨(3 : Nat), true, 0, true⟩⟩ = some p) ↔
      (0 : Nat) = 0) ∧
    ((∃ g s, antidote.RwLock.try_write
        ⟨sync.RwLock.writerAborts ⟨(3 : Nat), true, 0, true⟩⟩ = (.ok g, s)) ↔
      (0 : Nat) = 0) :=
  rwlock_concurrency ⟨3, true, 0, false⟩ ⟨1, false, 2, true⟩ 4 rfl

/-- Claim C8: `get_mut`, reachable only through exclusive access to the
wrapper, returns the protected value directly, without acquiring the lock
(no holder precondition, no state change), never blocking and never
erring, the poisoned case absorbed into success. -/
theorem get_mut_returns_value {T : Type} (m : sync.Mutex T)
    (l : sync.RwLock T) :
    antidote.Mutex.get_mut ⟨m⟩ = m.value ∧
    antidote.RwLock.get_mut ⟨l⟩ = l.value := by
  cases hm : m.poisoned <;> cases hl : l.poisoned <;>
    simp [antidote.Mutex.get_mut, sync.Mutex.get_mut,
      antidote.RwLock.get_mut, sync.RwLock.get_mut, hm, hl,
      sync.unwrapOrElse, sync.PoisonError.into_inner]

/-- Claim C9: construction followed by consumption is the identity on the
protected value, whatever the poison flag at consumption time:
`Mutex::new(v).into_inner() = v` and `RwLock::new(v).into_inner() = v`. -/
theorem new_into_inner_roundtrip {T : Type} (v : T) (b c : Bool) :
    antidote.Mutex.into_inner
      ⟨{ (antidote.Mutex.new v).inner with poisoned := b }⟩ = v ∧
    antidote.RwLock.into_inner
      ⟨{ (antidote.RwLock.new v).inner with poisoned := c }⟩ = v ∧
    antidote.Mutex.into_inner (antidote.Mutex.new v) = v ∧
    antidote.RwLock.into_inner (antidote.RwLock.new v) = v := by
  cases b <;> cases c <;>
    simp [antidote.Mutex.into_inner, sync.Mutex.into_inner,
      antidote.RwLock.into_inner, sync.RwLock.into_inner,
      antidote.Mutex.new, antidote.RwLock.new, sync.unwrapOrElse,
      sync.PoisonError.into_inner]

/-- Claim C10: noninterference with respect to the poison flag — every
public operation, run on two underlying lock states differing only in the
poison flag (same protected value, same holders), produces the same
success/would-block outcome, the same accessed value, and resulting states
again equal up to the poison flag. -/
theorem poison_noninterference {T : Type} (m : sync.Mutex T)
    (l : sync.RwLock T) (b b' : Bool) :
    (antidote.Mutex.lock ⟨{ m with poisoned := b }⟩).map
        (fun p => (p.1, { p.2.inner with poisoned := false })) =
      (antidote.Mutex.lock ⟨{ m with poisoned := b' }⟩).map
        (fun p => (p.1, { p.2.inner with poisoned := false })) ∧
    (antidote.Mutex.try_lock ⟨{ m with poisoned := b }⟩).1 =
      (antidote.Mutex.try_lock ⟨{ m with poisoned := b' }⟩).1 ∧
    { (antidote.Mutex.try_lock ⟨{ m with poisoned := b }⟩).2.inner with
        poisoned := false } =
      { (antidote.Mutex.try_lock ⟨{ m with poisoned := b' }⟩).2.inner with
        poisoned := false } ∧
    antidote.Mutex.into_inner ⟨{ m with poisoned := b }⟩ =
      antidote.Mutex.into_inner ⟨{ m with poisoned := b' }⟩ ∧
    antidote.Mutex.get_mut ⟨{ m with poisoned := b }⟩ =
      antidote.Mutex.get_mut ⟨{ m with poisoned := b' }⟩ ∧
    (antidote.RwLock.read ⟨{ l with poisoned := b }⟩).map
        (fun p => (p.1, { p.2.inner with poisoned := false })) =
      (antidote.RwLock.read ⟨{ l with poisoned := b' }⟩).map
        (fun p => (p.1, { p.2.inner with poisoned := false })) ∧
    (antidote.RwLock.try_read ⟨{ l with poisoned := b }⟩).1 =
      (antidote.RwLock.try_read ⟨{ l with poisoned := b' }⟩).1 ∧
    { (antidote.RwLock.try_read ⟨{ l with poisoned := b }⟩).2.inner with
        poisoned := false } =
      { (antidote.RwLock.try_read ⟨{ l with poisoned := b' }⟩).2.inner with
        poisoned := false } ∧
    (antidote.RwLock.write ⟨{ l with poisoned := b }⟩).map
        (fun p => (p.1, { p.2.inner with poisoned := false })) =
      (antidote.RwLock.write ⟨{ l with poisoned := b' }⟩).map
        (fun p => (p.1, { p.2.inner with poisoned := false })) ∧
    (antidote.RwLock.try_write ⟨{ l with poisoned := b }⟩).1 =
      (antidote.RwLock.try_write ⟨{ l with poisoned := b' }⟩).1 ∧
    { (antidote.RwLock.try_write ⟨{ l with poisoned := b }⟩).2.inner with
        poisoned := false } =
      { (antidote.RwLock.try_write ⟨{ l with poisoned := b' }⟩).2.inner with
        poisoned := false } ∧
    antidote.RwLock.into_inner ⟨{ l with poisoned := b }⟩ =
      antidote.RwLock.into_inner ⟨{ l with poisoned := b' }⟩ ∧
    antidote.RwLock.get_mut ⟨{ l with poisoned := b }⟩ =
      antidote.RwLock.get_mut ⟨{ l with poisoned := b' }⟩ := by
  obtain ⟨mv, mp, ml⟩ := m
  obtain ⟨lv, lp, lr, lw⟩ := l
  by_cases hr : lr = 0 <;> subst_vars <;>
    cases b <;> cases b' <;> cases ml <;> cases lw <;>
    simp_all [antidote.Mutex.lock, sync.Mutex.lock, antidote.Mutex.try_lock,
      sync.Mutex.try_lock, antidote.Mutex.into_inner, sync.Mutex.into_inner,
      antidote.Mutex.get_mut, sync.Mutex.get_mut, antidote.RwLock.read,
      sync.RwLock.read, antidote.RwLock.try_read, sync.RwLock.try_read,
      antidote.RwLock.write, sync.RwLock.write, antidote.RwLock.try_write,
      sync.RwLock.try_write, antidote.RwLock.into_inner,
      sync.RwLock.into_inner, antidote.RwLock.get_mut, sync.RwLock.get_mut,
      sync.unwrapOrElse, sync.PoisonError.into_inner]
